import Mathlib

/-!
Verification of the volki plugin SDK (`volki/__init__.py`) and the example
plugin (`volki_plugin_example/volki_plugin.py`).

The runtime is embedded shallowly: a JSON value type stands for the result of
the Python `json.loads` function, and `create_plugin` becomes a pure function from the
parsed standard-input buffer to a run result (the sequence of output events
plus the process exit code).  A `none` input stands for a buffer on which
`json.loads` raised (invalid JSON).  Handler code is modelled as an opaque
function that either returns an optional JSON value or raises with a message,
mirroring the Python `except Exception as exc` boundary where `str(exc)` is
the message of the caught failure.
-/

namespace Volki

/-- JSON values as produced by the Python `json.loads` function: `null`, booleans,
numbers (JSON has one number type; Python decodes to `int` or `float`, both
accepted wherever the code checks `isinstance(x, (int, float))`; we carry the
exact value as a rational), strings, arrays, and objects (Python `dict`,
represented as the field list in document order). -/
inductive Json where
  | null : Json
  | bool (b : Bool) : Json
  | num (q : Rat) : Json
  | str (s : String) : Json
  | arr (elems : List Json) : Json
  | obj (fields : List (String × Json)) : Json
deriving Repr

/-- Python `dict.get` on the field list of a decoded JSON object.  The Python
`json.loads` function keeps the last binding when a key repeats, so lookup is
last-wins. -/
def dict_get (fields : List (String × Json)) (key : String) : Option Json :=
  fields.foldl (fun acc p => if p.1 = key then some p.2 else acc) none

/-- `req.get(key)` on an arbitrary decoded value: objects look the key up,
every other value has no fields (Python would raise `AttributeError`; the
parser models that path separately via `pyTypeName`). -/
def jget (j : Json) (key : String) : Option Json :=
  match j with
  | .obj fields => dict_get fields key
  | _ => none

/-- `isinstance(v, (int, float))` on an optional field value.  Python `bool`
is a subtype of `int`, so JSON `true`/`false` pass; a missing field gives
`None`, which fails. -/
def is_number : Option Json → Bool
  | some (.num _) => true
  | some (.bool _) => true
  | _ => false

/-- `isinstance(v, str)` on an optional field value. -/
def is_string : Option Json → Bool
  | some (.str _) => true
  | _ => false

/-- `isinstance(v, dict)` on an optional field value. -/
def is_dict : Option Json → Bool
  | some (.obj _) => true
  | _ => false

/-- Python truthiness of a decoded JSON value, as tested by
`request.get("plugin_options") or \x7b\x7d`. -/
def truthy : Json → Bool
  | .null => false
  | .bool b => b
  | .num q => decide (q ≠ 0)
  | .str s => decide (s ≠ "")
  | .arr elems => !elems.isEmpty
  | .obj fields => !fields.isEmpty

/-- The Python type name of a decoded JSON value, used in the
`AttributeError` message raised by `req.get(...)` when `json.loads` returned
a non-`dict`.  JSON integers decode to `int`, other numbers to `float`; the
embedding carries one number type, so an integral-valued float shares the
`int` name — the name only ever feeds a diagnostic string no claim
inspects. -/
def pyTypeName : Json → String
  | .null => "NoneType"
  | .bool _ => "bool"
  | .num q => if q.den = 1 then "int" else "float"
  | .str _ => "str"
  | .arr _ => "list"
  | .obj _ => "dict"

/-- `_parse_request`: decode the buffer and validate the three required
fields, in source order.  `none` input stands for a buffer on which
`json.loads` raised; a decoded non-object raises `AttributeError` at the
first `req.get` call; otherwise the three `isinstance` checks run in order
and the first failure raises `ValueError` with the corresponding message.
On success the request object is returned unchanged. -/
def parse_request (input : Option Json) : Except String Json :=
  match input with
  | none => .error "Expecting value: line 1 column 1 (char 0)"
  | some j =>
    match j with
    | .obj fields =>
      if ¬ is_number (dict_get fields "version") then
        .error "missing or invalid \x27version\x27 field"
      else if ¬ is_string (dict_get fields "hook") then
        .error "missing or invalid \x27hook\x27 field"
      else if ¬ is_dict (dict_get fields "data") then
        .error "missing or invalid \x27data\x27 field"
      else
        .ok (.obj fields)
    | other => .error ("\x27" ++ pyTypeName other ++ "\x27 object has no attribute \x27get\x27")

/-- One observable action on standard output.  `writeLine obj` models the
single call `sys.stdout.write(json.dumps(obj) + "\n")`: one JSON-encoded
object plus its trailing newline written in one write; `flush` models
`sys.stdout.flush()`. -/
inductive OutEvent where
  | writeLine (obj : Json) : OutEvent
  | flush : OutEvent
deriving Repr

/-- `_write_response`: serialize the object with a trailing newline in a
single write, then flush. -/
def write_response (obj : Json) : List OutEvent :=
  [.writeLine obj, .flush]

/-- The observable outcome of one plugin process invocation: everything
written to standard output, in order, and the process exit code (`sys.exit(1)`
on the error path, `0` when `create_plugin` returns and the script ends). -/
structure RunResult where
  output : List OutEvent
  exitCode : Nat
deriving Repr

/-- What a plugin-author handler call does: return a value (`none` models
Python `None`, i.e. the handler declined) or raise a failure whose `str` is
`msg`. -/
inductive HandlerOutcome where
  | ret (v : Option Json) : HandlerOutcome
  | raise (msg : String) : HandlerOutcome

/-- A handler as invoked by the runtime: `handler(request["data"], options)`. -/
abbrev HandlerFn := Json → Json → HandlerOutcome

/-- The handler mapping passed to `create_plugin`; `handlers.get(hook)` is
function application. -/
abbrev Handlers := String → Option HandlerFn

/-- The `hook` field of a validated request (always a string there; the
default is unreachable on parsed requests). -/
def req_hook (req : Json) : String :=
  match jget req "hook" with
  | some (.str s) => s
  | _ => ""

/-- The `data` field of a validated request (always present there). -/
def req_data (req : Json) : Json :=
  match jget req "data" with
  | some d => d
  | _ => .null

/-- `request.get("plugin_options") or \x7b\x7d`: a missing key gives `None`
(falsy), and any falsy value — `null`, `false`, `0`, `""`, `[]`, the empty
object — is replaced by the empty dict; a truthy value passes through
unchanged. -/
def extract_options (req : Json) : Json :=
  match jget req "plugin_options" with
  | none => .obj []
  | some v => if truthy v then v else .obj []

/-- The skip response object `\x7b"version": 1, "status": "skip"\x7d`. -/
def skip_response : Json :=
  .obj [("version", .num 1), ("status", .str "skip")]

/-- The ok response object `\x7b"version": 1, "status": "ok", "data": result\x7d`. -/
def ok_response (d : Json) : Json :=
  .obj [("version", .num 1), ("status", .str "ok"), ("data", d)]

/-- The error response object `\x7b"version": 1, "status": "error", "error": str(exc)\x7d`. -/
def error_response (msg : String) : Json :=
  .obj [("version", .num 1), ("status", .str "error"), ("error", .str msg)]

/-- Lines 180–185 of `create_plugin`: invoke the handler and translate its
outcome.  A raised failure is caught by the enclosing `except Exception`
block, which writes the error response and calls `sys.exit(1)`; `None`
yields skip, any other return value is written verbatim as the `data`
field of the ok response. -/
def run_handler (h : HandlerFn) (data opts : Json) : RunResult :=
  match h data opts with
  | .raise msg => ⟨write_response (error_response msg), 1⟩
  | .ret none => ⟨write_response skip_response, 0⟩
  | .ret (some d) => ⟨write_response (ok_response d), 0⟩

/-- Lines 173–185: look the handler up by the hook string of the request; absent
means skip, present means extract options and run the handler. -/
def dispatch (handlers : Handlers) (req : Json) : RunResult :=
  match handlers (req_hook req) with
  | none => ⟨write_response skip_response, 0⟩
  | some h => run_handler h (req_data req) (extract_options req)

/-- `create_plugin`: the whole read–parse–dispatch–respond cycle.  Any
failure before or during dispatch (decode error, validation error, attribute
error, handler failure) is caught by the one `except Exception` boundary,
which writes the error response and exits 1; all other paths return
normally, so the process exits 0. -/
def create_plugin (handlers : Handlers) (input : Option Json) : RunResult :=
  match parse_request input with
  | .error msg => ⟨write_response (error_response msg), 1⟩
  | .ok req => dispatch handlers req

/-- The closed set of hook names (`HOOKS` in the source). -/
def HOOKS : List String :=
  ["formatter.before_all", "formatter.after_normalize",
   "formatter.before_whitespace", "formatter.after_all"]

/-- A malformed input buffer in the sense of the spec: not valid JSON, or
decoded JSON whose `version` is missing or not numeric, whose `hook` is
missing or not a string, or whose `data` is missing or not an object (a
non-object decode has every field missing). -/
def malformed (input : Option Json) : Prop :=
  input = none ∨
    ∃ j, input = some j ∧
      ¬(is_number (jget j "version") ∧ is_string (jget j "hook") ∧ is_dict (jget j "data"))

end Volki

namespace VolkiExample

/-!
Embedding of the example plugin `volki_plugin_example/volki_plugin.py` at the
level of its declared types: `Token`, `FormatConfig`, `Data`, `HandlerResult`
are the TypedDict shapes from the SDK, and `before_all` is the
banner-prepending handler. -/

/-- The `Token` TypedDict: `kind`, `text`, `line`, `col`.  `kind` is a plain
string at runtime (the `Literal` annotation is not enforced). -/
structure Token where
  kind : String
  text : String
  line : Int
  col : Int
deriving Repr, DecidableEq

/-- The `FormatConfig` TypedDict. -/
structure FormatConfig where
  print_width : Int
  tab_width : Int
  use_tabs : Bool
  semi : Bool
  single_quote : Bool
  bracket_spacing : Bool
deriving Repr, DecidableEq

/-- The `Data` TypedDict: the token list plus the formatter configuration. -/
structure Data where
  tokens : List Token
  config : FormatConfig
deriving Repr, DecidableEq

/-- The `HandlerResult` TypedDict: a replacement token list. -/
structure HandlerResult where
  tokens : List Token
deriving Repr, DecidableEq

/-- `Options = Dict[str, str]`, as a field list; lookup is last-wins like a
Python dict built from it. -/
abbrev Options := List (String × String)

/-- `options.get(key, dflt)`. -/
def options_get (options : Options) (key dflt : String) : String :=
  match options.foldl (fun acc p => if p.1 = key then some p.2 else acc) none with
  | some v => v
  | none => dflt

/-- The two-token banner inserted by `before_all`: the line comment
`"// " + banner` followed by a newline token, both at position (0, 0). -/
def banner_lead (banner : String) : List Token :=
  [⟨"LineComment", "// " ++ banner, 0, 0⟩, ⟨"Newline", "\n", 0, 0⟩]

/-- The guard of `before_all`:
`len(tokens) > 0 and tokens[0]["kind"] == "LineComment" and tokens[0]["text"] == "// " + banner`. -/
def starts_with_banner (tokens : List Token) (banner : String) : Bool :=
  match tokens with
  | [] => false
  | t0 :: _ => t0.kind == "LineComment" && t0.text == "// " ++ banner

/-- The example handler `before_all`: read the banner text from the options
(defaulting to "Generated file - do not edit"), return `None` when the first
token already is that exact banner comment, otherwise return the tokens with
the two-token banner prepended. -/
def before_all (data : Data) (options : Options) : Option HandlerResult :=
  let banner := options_get options "banner_text" "Generated file - do not edit"
  let tokens := data.tokens
  if starts_with_banner tokens banner then
    none
  else
    some ⟨banner_lead banner ++ tokens⟩

end VolkiExample

/-! Concrete fixtures used by witnesses and counterexamples. -/

/-- A handler mapping with no entries (`handlers.get` always returns `None`). -/
def noHandlers : Volki.Handlers := fun _ => none

/-- A well-formed `data` object with an empty token list. -/
def sampleData : Volki.Json :=
  .obj [("tokens", .arr []), ("config", .obj [])]

/-- A valid request for the `formatter.before_all` hook with no
`plugin_options`. -/
def sampleReq : Volki.Json :=
  .obj [("version", .num 1), ("hook", .str "formatter.before_all"),
        ("data", sampleData)]

/-- A handler that raises a failure whose message is empty, modelling
`raise ValueError()` (`str(ValueError())` is the empty string). -/
def c1Handlers : Volki.Handlers :=
  fun s => if s = "formatter.before_all" then some (fun _ _ => .raise "") else none

/-- A handler that raises a failure with message "boom". -/
def c1BoomHandlers : Volki.Handlers :=
  fun s => if s = "formatter.before_all" then some (fun _ _ => .raise "boom") else none

/-- A single concrete token object on the wire. -/
def sampleToken : Volki.Json :=
  .obj [("kind", .str "Identifier"), ("text", .str "x"),
        ("line", .num 1), ("col", .num 1)]

/-- A handler that returns one replacement token. -/
def c4Handlers : Volki.Handlers :=
  fun s =>
    if s = "formatter.before_all" then
      some (fun _ _ => .ret (some (.obj [("tokens", .arr [sampleToken])])))
    else none

/-- A valid request whose hook string is outside the closed hook-name set. -/
def c5Req : Volki.Json :=
  .obj [("version", .num 1), ("hook", .str "custom.hook"), ("data", .obj [])]

/-- A valid request carrying a non-empty `plugin_options` object. -/
def c7Req : Volki.Json :=
  .obj [("version", .num 1), ("hook", .str "formatter.before_all"),
        ("data", sampleData),
        ("plugin_options", .obj [("banner_text", .str "B")])]

/-- A handler that echoes its options argument back as the result. -/
def echoOptions : Volki.HandlerFn := fun _ o => .ret (some o)

/-- A handler mapping registering `echoOptions` on `formatter.before_all`. -/
def c7Handlers : Volki.Handlers :=
  fun s => if s = "formatter.before_all" then some echoOptions else none

/-- A concrete formatter configuration. -/
def exampleConfig : VolkiExample.FormatConfig :=
  ⟨80, 2, false, true, false, true⟩

/-- A request shape with symbolic `version`, `hook` and `data` fields and no
`plugin_options`. -/
def mkReq (v : Volki.Json) (s : String) (dataFields : List (String × Volki.Json)) : Volki.Json :=
  .obj [("version", v), ("hook", .str s), ("data", .obj dataFields)]

/-- A request shape with symbolic `version`, `hook`, `data` and
`plugin_options` fields. -/
def mkReq4 (v : Volki.Json) (s : String) (dataFields : List (String × Volki.Json))
    (popts : Volki.Json) : Volki.Json :=
  .obj [("version", v), ("hook", .str s), ("data", .obj dataFields),
        ("plugin_options", popts)]

/-- A handler that declines (returns `None`). -/
def declineHandler : Volki.HandlerFn := fun _ _ => .ret none

/-- A handler mapping registering `declineHandler` on `formatter.before_all`. -/
def c10Handlers : Volki.Handlers :=
  fun s => if s = "formatter.before_all" then some declineHandler else none

/-! Shared helper lemmas. -/

/-- Helper: `_parse_request` fails exactly on malformed inputs. -/
theorem parse_error_iff_malformed (input : Option Volki.Json) :
    (∃ e, Volki.parse_request input = .error e) ↔ Volki.malformed input := by
  cases input with
  | none => simp [Volki.parse_request, Volki.malformed]
  | some j =>
    cases j with
    | obj fields =>
      by_cases hv : Volki.is_number (Volki.dict_get fields "version") <;>
        by_cases hh : Volki.is_string (Volki.dict_get fields "hook") <;>
          by_cases hd : Volki.is_dict (Volki.dict_get fields "data") <;>
            simp [Volki.parse_request, Volki.malformed, Volki.jget, hv, hh, hd]
    | null => simp [Volki.parse_request, Volki.malformed, Volki.jget, Volki.is_number]
    | bool b => simp [Volki.parse_request, Volki.malformed, Volki.jget, Volki.is_number]
    | num q => simp [Volki.parse_request, Volki.malformed, Volki.jget, Volki.is_number]
    | str s => simp [Volki.parse_request, Volki.malformed, Volki.jget, Volki.is_number]
    | arr elems => simp [Volki.parse_request, Volki.malformed, Volki.jget, Volki.is_number]

/-- Helper: when parsing succeeds the run is the dispatch of the parsed
request. -/
theorem create_plugin_ok (handlers : Volki.Handlers) (input : Option Volki.Json)
    (req : Volki.Json) (hp : Volki.parse_request input = .ok req) :
    Volki.create_plugin handlers input = Volki.dispatch handlers req := by
  simp [Volki.create_plugin, hp]

/-- Helper: when parsing fails the run writes the error response and exits 1. -/
theorem create_plugin_err (handlers : Volki.Handlers) (input : Option Volki.Json)
    (msg : String) (hp : Volki.parse_request input = .error msg) :
    Volki.create_plugin handlers input
      = ⟨Volki.write_response (Volki.error_response msg), 1⟩ := by
  simp [Volki.create_plugin, hp]

/-! Claim C1. -/

/-- C1 counterexample: with the handler raising a failure whose message is
empty (Python `raise ValueError()` gives `str(exc) == ""`), the runtime does
catch the failure and exits 1, but the error response field `error` is the
empty string — there is no non-empty error string in the written response,
so the claim as stated is false at this input. -/
theorem c1_empty_error_counterexample :
    (Volki.create_plugin c1Handlers (some sampleReq)).output
        = Volki.write_response (Volki.error_response "")
      ∧ (Volki.create_plugin c1Handlers (some sampleReq)).exitCode = 1
      ∧ ¬ ∃ s : String, s ≠ ""
          ∧ (Volki.create_plugin c1Handlers (some sampleReq)).output
              = Volki.write_response (Volki.error_response s) := by
  refine ⟨rfl, rfl, ?_⟩
  rintro ⟨s, hs, hout⟩
  have h0 : (Volki.create_plugin c1Handlers (some sampleReq)).output
      = Volki.write_response (Volki.error_response "") := rfl
  rw [h0] at hout
  simp [Volki.write_response, Volki.error_response] at hout
  exact hs hout.symm

/-- C1 (amended): for every request whose registered handler raises a failure
during invocation, the runtime catches it at the dispatch boundary, writes
the error response carrying the message of the failure (empty exactly when
that message is empty), and the process exits with a non-zero exit code. -/
theorem c1_handler_failure_caught (handlers : Volki.Handlers)
    (input : Option Volki.Json) (req : Volki.Json) (h : Volki.HandlerFn)
    (msg : String)
    (hparse : Volki.parse_request input = .ok req)
    (hlook : handlers (Volki.req_hook req) = some h)
    (hrun : h (Volki.req_data req) (Volki.extract_options req) = .raise msg) :
    (Volki.create_plugin handlers input).output
        = Volki.write_response (Volki.error_response msg)
      ∧ (Volki.create_plugin handlers input).exitCode ≠ 0 := by
  rw [create_plugin_ok handlers input req hparse]
  simp [Volki.dispatch, hlook, Volki.run_handler, hrun]

/-- C1 witness: a handler raising a failure with message "boom" yields the
error response carrying "boom" and a non-zero exit code. -/
theorem c1_handler_failure_caught_witness :
    (Volki.create_plugin c1BoomHandlers (some sampleReq)).output
        = Volki.write_response (Volki.error_response "boom")
      ∧ (Volki.create_plugin c1BoomHandlers (some sampleReq)).exitCode ≠ 0 :=
  c1_handler_failure_caught c1BoomHandlers (some sampleReq) sampleReq
    (fun _ _ => .raise "boom") "boom" rfl rfl rfl

/-! Claim C2. -/

/-- C2: for every malformed input buffer — not valid JSON, or decoded JSON
whose `version` is missing or not numeric, whose `hook` is missing or not a
string, or whose `data` is missing or not an object — `create_plugin` writes
the error response (one write, then a flush) and exits non-zero; it never
terminates without having written a response. -/
theorem c2_malformed_always_error (handlers : Volki.Handlers)
    (input : Option Volki.Json) (hmal : Volki.malformed input) :
    ∃ msg : String,
      (Volki.create_plugin handlers input).output
          = Volki.write_response (Volki.error_response msg)
        ∧ (Volki.create_plugin handlers input).exitCode ≠ 0 := by
  obtain ⟨e, he⟩ := (parse_error_iff_malformed input).mpr hmal
  refine ⟨e, ?_⟩
  rw [create_plugin_err handlers input e he]
  simp

/-- C2 witness: the invalid-JSON input (decode failure) with an empty handler
mapping yields an error response and non-zero exit. -/
theorem c2_malformed_always_error_witness :
    ∃ msg : String,
      (Volki.create_plugin noHandlers none).output
          = Volki.write_response (Volki.error_response msg)
        ∧ (Volki.create_plugin noHandlers none).exitCode ≠ 0 :=
  c2_malformed_always_error noHandlers none (Or.inl rfl)

/-! Claim C3. -/

/-- C3: for every valid request, the run writes exactly the skip response
with exit code 0 precisely when either no handler is registered for the hook
of the request, or the registered handler returns no value; both cases
produce the same response object, so they are indistinguishable in the
response. -/
theorem c3_skip_iff (handlers : Volki.Handlers) (input : Option Volki.Json)
    (req : Volki.Json) (hparse : Volki.parse_request input = .ok req) :
    ((Volki.create_plugin handlers input).output
          = Volki.write_response Volki.skip_response
        ∧ (Volki.create_plugin handlers input).exitCode = 0)
      ↔ (handlers (Volki.req_hook req) = none
          ∨ ∃ h, handlers (Volki.req_hook req) = some h
              ∧ h (Volki.req_data req) (Volki.extract_options req) = .ret none) := by
  rw [create_plugin_ok handlers input req hparse]
  cases hl : handlers (Volki.req_hook req) with
  | none => simp [Volki.dispatch, hl]
  | some h =>
    cases hr : h (Volki.req_data req) (Volki.extract_options req) with
    | raise msg =>
      simp [Volki.dispatch, hl, Volki.run_handler, hr]
    | ret v =>
      cases v with
      | none => simp [Volki.dispatch, hl, Volki.run_handler, hr]
      | some d =>
        simp [Volki.dispatch, hl, Volki.run_handler, hr, Volki.write_response,
          Volki.skip_response, Volki.ok_response]

/-- C3 witness: the iff instantiated at a concrete valid request with an
empty handler mapping. -/
theorem c3_skip_iff_witness :
    ((Volki.create_plugin noHandlers (some sampleReq)).output
          = Volki.write_response Volki.skip_response
        ∧ (Volki.create_plugin noHandlers (some sampleReq)).exitCode = 0)
      ↔ (noHandlers (Volki.req_hook sampleReq) = none
          ∨ ∃ h, noHandlers (Volki.req_hook sampleReq) = some h
              ∧ h (Volki.req_data sampleReq) (Volki.extract_options sampleReq)
                  = .ret none) :=
  c3_skip_iff noHandlers (some sampleReq) sampleReq rfl

/-! Claim C4. -/

/-- C4: for every valid request whose registered handler returns a value
with a `tokens` field holding the token list `T`, the response written is
the ok response whose `data` is that exact object — the same `T`, no
reordering, no field injection, no token modified — and the exit code is 0. -/
theorem c4_ok_verbatim (handlers : Volki.Handlers) (input : Option Volki.Json)
    (req : Volki.Json) (h : Volki.HandlerFn) (T : List Volki.Json)
    (hparse : Volki.parse_request input = .ok req)
    (hlook : handlers (Volki.req_hook req) = some h)
    (hrun : h (Volki.req_data req) (Volki.extract_options req)
        = .ret (some (.obj [("tokens", .arr T)]))) :
    (Volki.create_plugin handlers input).output
        = Volki.write_response (Volki.ok_response (.obj [("tokens", .arr T)]))
      ∧ (Volki.create_plugin handlers input).exitCode = 0 := by
  rw [create_plugin_ok handlers input req hparse]
  simp [Volki.dispatch, hlook, Volki.run_handler, hrun]

/-- C4 witness: a handler returning one token yields the ok response carrying
exactly that token list. -/
theorem c4_ok_verbatim_witness :
    (Volki.create_plugin c4Handlers (some sampleReq)).output
        = Volki.write_response
            (Volki.ok_response (.obj [("tokens", .arr [sampleToken])]))
      ∧ (Volki.create_plugin c4Handlers (some sampleReq)).exitCode = 0 :=
  c4_ok_verbatim c4Handlers (some sampleReq) sampleReq
    (fun _ _ => .ret (some (.obj [("tokens", .arr [sampleToken])])))
    [sampleToken] rfl rfl rfl

/-! Claim C5. -/

/-- C5: `_parse_request` fails exactly when the buffer is not valid JSON, or
`version` is missing or not numeric, or `hook` is missing or not a string,
or `data` is missing or not an object — and in no other case; in particular
a valid request whose hook string lies outside the closed four-name hook set
is not rejected at parse time and is dispatched normally, yielding the skip
response with exit 0 when no handler is registered under that string. -/
theorem c5_parse_rejects_exactly :
    (∀ input : Option Volki.Json,
        (∃ e, Volki.parse_request input = .error e) ↔ Volki.malformed input)
    ∧ ∀ (handlers : Volki.Handlers) (input : Option Volki.Json)
        (req : Volki.Json),
        Volki.parse_request input = .ok req →
        Volki.req_hook req ∉ Volki.HOOKS →
        handlers (Volki.req_hook req) = none →
        (Volki.create_plugin handlers input).output
            = Volki.write_response Volki.skip_response
          ∧ (Volki.create_plugin handlers input).exitCode = 0 := by
  constructor
  · exact parse_error_iff_malformed
  · intro handlers input req hparse _ hlook
    rw [create_plugin_ok handlers input req hparse]
    simp [Volki.dispatch, hlook]

/-- C5 witness: the request with hook string "custom.hook" — outside the
closed hook set — parses, and with no handler registered it yields the skip
response and exit 0. -/
theorem c5_parse_rejects_exactly_witness :
    Volki.parse_request (some c5Req) = .ok c5Req
      ∧ Volki.req_hook c5Req ∉ Volki.HOOKS
      ∧ (Volki.create_plugin noHandlers (some c5Req)).output
          = Volki.write_response Volki.skip_response
      ∧ (Volki.create_plugin noHandlers (some c5Req)).exitCode = 0 := by
  have hmem : Volki.req_hook c5Req ∉ Volki.HOOKS := by decide
  have h := c5_parse_rejects_exactly.2 noHandlers (some c5Req) c5Req rfl hmem rfl
  exact ⟨rfl, hmem, h.1, h.2⟩

/-! Claim C6. -/

/-- C6: on every execution path — skip, ok, and error alike — the runtime
writes exactly one response: a single JSON-encoded object with its trailing
newline in one write, immediately followed by a flush, and nothing else, on
standard output before the process exits. -/
theorem c6_exactly_one_response (handlers : Volki.Handlers)
    (input : Option Volki.Json) :
    ∃ obj : Volki.Json,
      (Volki.create_plugin handlers input).output
        = [Volki.OutEvent.writeLine obj, Volki.OutEvent.flush] := by
  cases hp : Volki.parse_request input with
  | error e =>
    exact ⟨Volki.error_response e, by
      rw [create_plugin_err handlers input e hp]
      simp [Volki.write_response]⟩
  | ok req =>
    rw [create_plugin_ok handlers input req hp]
    cases hl : handlers (Volki.req_hook req) with
    | none => exact ⟨Volki.skip_response, by simp [Volki.dispatch, hl, Volki.write_response]⟩
    | some h =>
      cases hr : h (Volki.req_data req) (Volki.extract_options req) with
      | raise msg =>
        exact ⟨Volki.error_response msg, by
          simp [Volki.dispatch, hl, Volki.run_handler, hr, Volki.write_response]⟩
      | ret v =>
        cases v with
        | none =>
          exact ⟨Volki.skip_response, by
            simp [Volki.dispatch, hl, Volki.run_handler, hr, Volki.write_response]⟩
        | some d =>
          exact ⟨Volki.ok_response d, by
            simp [Volki.dispatch, hl, Volki.run_handler, hr, Volki.write_response]⟩

/-! Claim C7. -/

/-- C7: for every valid request with a registered handler, when the
`plugin_options` field is absent or `null` the handler is invoked with the
empty mapping as its options argument, and when it is an options mapping the
handler is invoked with that mapping unchanged (the empty mapping is falsy
in Python, but replacing it by the empty dict is the identity). -/
theorem c7_options_defaulting (handlers : Volki.Handlers)
    (input : Option Volki.Json) (req : Volki.Json) (h : Volki.HandlerFn)
    (hparse : Volki.parse_request input = .ok req)
    (hlook : handlers (Volki.req_hook req) = some h) :
    ((Volki.jget req "plugin_options" = none
        ∨ Volki.jget req "plugin_options" = some .null) →
      Volki.create_plugin handlers input
        = Volki.run_handler h (Volki.req_data req) (.obj []))
    ∧ ∀ fields, Volki.jget req "plugin_options" = some (.obj fields) →
        Volki.create_plugin handlers input
          = Volki.run_handler h (Volki.req_data req) (.obj fields) := by
  rw [create_plugin_ok handlers input req hparse]
  constructor
  · rintro (hnone | hnull)
    · simp [Volki.dispatch, hlook, Volki.extract_options, hnone]
    · simp [Volki.dispatch, hlook, Volki.extract_options, hnull, Volki.truthy]
  · intro fields hf
    have hopt : Volki.extract_options req = .obj fields := by
      cases fields with
      | nil => simp [Volki.extract_options, hf, Volki.truthy]
      | cons a l => simp [Volki.extract_options, hf, Volki.truthy]
    simp [Volki.dispatch, hlook, hopt]

/-- C7 witness: a request carrying `plugin_options = \x7b"banner_text": "B"\x7d`
invokes the handler with exactly that mapping. -/
theorem c7_options_defaulting_witness :
    Volki.create_plugin c7Handlers (some c7Req)
      = Volki.run_handler echoOptions (Volki.req_data c7Req)
          (.obj [("banner_text", .str "B")]) :=
  (c7_options_defaulting c7Handlers (some c7Req) c7Req echoOptions rfl rfl).2
    [("banner_text", .str "B")] rfl

/-! Claim C8. -/

/-- C8: the example banner-prepending handler is idempotent — for every
`Data` value, every options mapping, and every configuration for the second
call, if a first invocation returns replacement tokens, a second invocation
on the same options whose input tokens are exactly that output returns no
value (and the second process invocation therefore yields skip). -/
theorem c8_banner_idempotent (data : VolkiExample.Data)
    (options : VolkiExample.Options) (T : List VolkiExample.Token)
    (config2 : VolkiExample.FormatConfig)
    (hfirst : VolkiExample.before_all data options = some ⟨T⟩) :
    VolkiExample.before_all ⟨T, config2⟩ options = none := by
  unfold VolkiExample.before_all at hfirst ⊢
  by_cases hs : VolkiExample.starts_with_banner data.tokens
      (VolkiExample.options_get options "banner_text" "Generated file - do not edit")
  · simp [hs] at hfirst
  · simp only [hs, if_neg, Bool.false_eq_true, not_false_eq_true, if_false] at hfirst
    have hT : VolkiExample.banner_lead
        (VolkiExample.options_get options "banner_text" "Generated file - do not edit")
          ++ data.tokens = T := by
      simpa using congrArg VolkiExample.HandlerResult.tokens (Option.some.inj hfirst)
    have hstart : VolkiExample.starts_with_banner T
        (VolkiExample.options_get options "banner_text" "Generated file - do not edit")
          = true := by
      rw [← hT]
      simp [VolkiExample.banner_lead, VolkiExample.starts_with_banner]
    simp [hstart]

/-- C8 witness: starting from an empty token list with empty options, the
first invocation prepends the default banner and the second invocation on
its output declines. -/
theorem c8_banner_idempotent_witness :
    VolkiExample.before_all ⟨[], exampleConfig⟩ []
        = some ⟨VolkiExample.banner_lead "Generated file - do not edit" ++ []⟩
      ∧ VolkiExample.before_all
          ⟨VolkiExample.banner_lead "Generated file - do not edit" ++ [],
            exampleConfig⟩ [] = none :=
  ⟨rfl, c8_banner_idempotent ⟨[], exampleConfig⟩ []
    (VolkiExample.banner_lead "Generated file - do not edit" ++ []) exampleConfig rfl⟩

/-! Claim C9. -/

/-- Helper: a `mkReq` request parses successfully as soon as its version
value passes the numeric `isinstance` check. -/
theorem parse_mkReq (v : Volki.Json) (s : String)
    (dataFields : List (String × Volki.Json))
    (hv : Volki.is_number (some v) = true) :
    Volki.parse_request (some (mkReq v s dataFields))
      = .ok (mkReq v s dataFields) := by
  simp [mkReq, Volki.parse_request, Volki.dict_get, hv, Volki.is_string,
    Volki.is_dict]

/-- C9: request parsing accepts any JSON value for `version` that decodes to
a numeric Python value — in particular the non-integer number 1.5 and the
booleans `true` and `false` (Python `bool` being a subtype of `int`) — and
such requests proceed to dispatch normally. -/
theorem c9_numeric_versions_accepted :
    (Volki.is_number (some (.num (3 / 2))) = true
      ∧ Volki.is_number (some (.bool true)) = true
      ∧ Volki.is_number (some (.bool false)) = true)
    ∧ ∀ (handlers : Volki.Handlers) (v : Volki.Json) (s : String)
        (dataFields : List (String × Volki.Json)),
        Volki.is_number (some v) = true →
        Volki.parse_request (some (mkReq v s dataFields))
            = .ok (mkReq v s dataFields)
          ∧ Volki.create_plugin handlers (some (mkReq v s dataFields))
              = Volki.dispatch handlers (mkReq v s dataFields) := by
  refine ⟨⟨rfl, rfl, rfl⟩, ?_⟩
  intro handlers v s dataFields hv
  have hp := parse_mkReq v s dataFields hv
  exact ⟨hp, create_plugin_ok handlers (some (mkReq v s dataFields)) (mkReq v s dataFields) hp⟩

/-- C9 witness: the request with `version = 1.5` parses and dispatches. -/
theorem c9_numeric_versions_accepted_witness :
    Volki.parse_request (some (mkReq (.num (3 / 2)) "formatter.before_all" []))
        = .ok (mkReq (.num (3 / 2)) "formatter.before_all" [])
      ∧ Volki.create_plugin noHandlers
            (some (mkReq (.num (3 / 2)) "formatter.before_all" []))
          = Volki.dispatch noHandlers (mkReq (.num (3 / 2)) "formatter.before_all" []) :=
  c9_numeric_versions_accepted.2 noHandlers (.num (3 / 2)) "formatter.before_all" [] rfl

/-! Claim C10. -/

/-- Helper: the hook string of a `mkReq4` request is its `hook` field. -/
theorem req_hook_mkReq4 (v : Volki.Json) (s : String)
    (dataFields : List (String × Volki.Json)) (popts : Volki.Json) :
    Volki.req_hook (mkReq4 v s dataFields popts) = s := by
  simp [mkReq4, Volki.req_hook, Volki.jget, Volki.dict_get]

/-- Helper: a `mkReq4` request parses successfully as soon as its version
value passes the numeric `isinstance` check. -/
theorem parse_mkReq4 (v : Volki.Json) (s : String)
    (dataFields : List (String × Volki.Json)) (popts : Volki.Json)
    (hv : Volki.is_number (some v) = true) :
    Volki.parse_request (some (mkReq4 v s dataFields popts))
      = .ok (mkReq4 v s dataFields popts) := by
  simp [mkReq4, Volki.parse_request, Volki.dict_get, hv, Volki.is_string,
    Volki.is_dict]

/-- C10: the runtime never reads or modifies the contents of the request
`data` field: whenever a handler is registered for the hook of a parsed
request, the whole run is exactly the handler invocation on the parsed
`data` (passed unchanged) with the extracted options; and two parsed
requests that differ only in their `data` field resolve to the same handler
lookup and, when no handler is registered for their hook, produce identical
runs (hence byte-identical serialized responses). -/
theorem c10_data_untouched :
    (∀ (handlers : Volki.Handlers) (input : Option Volki.Json)
        (req : Volki.Json) (h : Volki.HandlerFn),
        Volki.parse_request input = .ok req →
        handlers (Volki.req_hook req) = some h →
        Volki.create_plugin handlers input
          = Volki.run_handler h (Volki.req_data req) (Volki.extract_options req))
    ∧ ∀ (handlers : Volki.Handlers) (v : Volki.Json) (s : String)
        (df1 df2 : List (String × Volki.Json)) (popts : Volki.Json),
        Volki.is_number (some v) = true →
        handlers (Volki.req_hook (mkReq4 v s df1 popts))
            = handlers (Volki.req_hook (mkReq4 v s df2 popts))
          ∧ (handlers s = none →
              Volki.create_plugin handlers (some (mkReq4 v s df1 popts))
                = Volki.create_plugin handlers (some (mkReq4 v s df2 popts))) := by
  constructor
  · intro handlers input req h hparse hlook
    rw [create_plugin_ok handlers input req hparse]
    simp [Volki.dispatch, hlook]
  · intro handlers v s df1 df2 popts hv
    constructor
    · rw [req_hook_mkReq4, req_hook_mkReq4]
    · intro hnone
      rw [create_plugin_ok handlers _ _ (parse_mkReq4 v s df1 popts hv),
        create_plugin_ok handlers _ _ (parse_mkReq4 v s df2 popts hv)]
      simp [Volki.dispatch, req_hook_mkReq4, hnone]

/-- C10 witness: a registered declining handler receives the parsed data
verbatim, and two valid requests with the same unregistered hook but
different data objects produce identical runs. -/
theorem c10_data_untouched_witness :
    Volki.create_plugin c10Handlers (some sampleReq)
        = Volki.run_handler declineHandler (Volki.req_data sampleReq)
            (Volki.extract_options sampleReq)
      ∧ Volki.create_plugin noHandlers
            (some (mkReq4 (.num 1) "custom.hook" [("tokens", .arr [sampleToken])] .null))
          = Volki.create_plugin noHandlers
              (some (mkReq4 (.num 1) "custom.hook" [] .null)) :=
  ⟨c10_data_untouched.1 c10Handlers (some sampleReq) sampleReq declineHandler rfl rfl,
    (c10_data_untouched.2 noHandlers (.num 1) "custom.hook"
      [("tokens", .arr [sampleToken])] [] .null rfl).2 rfl⟩
